import Mathlib

/-!
Verification of the github-runner-operator reconciliation and lifecycle
engine against its natural-language specification.

The definitions below are a shallow embedding of the Python source:

* `fn_with_retry` embeds the `retry` decorator's wrapper from
  `src/utilities.py` (also used, with the same semantics, by
  `github_runner_manager.utilities.retry`).
* The reactive consumer (`consume`, `_validate_labels`, `_spawn_runner`)
  from `github_runner_manager/reactive/consumer.py`.
* The non-reactive reconciler (`RunnerScaler._reconcile_non_reactive`),
  the scaler body (`RunnerScaler.reconcile`) and the reconciliation
  metric (`_issue_reconciliation_metric`) from
  `github_runner_manager/manager/runner_scaler.py`.
* `OpenStackRunnerManager.create_runner`, `_wait_runner_startup`,
  `_wait_runner_running`, `cleanup` and `_get_runners_health` from
  `github_runner_manager/openstack_cloud/openstack_runner_manager.py`.
* The `flush_runner` HTTP handler from
  `github_runner_manager/http_server.py`.

External effects (SSH probes, cloud and platform API replies, queue
messages, clocks) are modelled as explicit oracle inputs; each embedded
function also returns the trace of side effects the source would have
performed, so ordering claims become statements about that trace.
-/

namespace GithubRunnerOperator

/-! ## Retry wrapper (`src/utilities.py`, `retry` / `fn_with_retry`)

One call of the decorated function `func` is modelled by an oracle
`f : Nat → AttemptResult ε α` giving the outcome of the i-th invocation:
it returns a value, raises an exception of the retried type (matched by
the `except exception` clause), or raises an exception of another type
(which propagates immediately). -/

/-- Outcome of a single invocation of the decorated function. -/
inductive AttemptResult (ε α : Type) where
  | ok (a : α)
  | caught (e : ε)
  | uncaught (e : ε)
deriving Repr, DecidableEq

/-- Result of the whole `fn_with_retry` wrapper: a returned value, a
re-raised exception, or the trailing `RuntimeError("Unreachable code of
retry logic.")`. -/
inductive RetryResult (ε α : Type) where
  | ok (a : α)
  | raised (e : ε)
  | runtimeError
deriving Repr, DecidableEq

/-- The `for _ in range(tries)` loop of `fn_with_retry`; `i` is the index
of the next invocation and the second argument the number of loop
iterations left.  `remain_tries` reaching zero corresponds to the
`rem = 0` test in the `caught` branch.  Returns the result together
with the number of invocations of `func` performed. -/
def retryLoop {ε α : Type} (f : Nat → AttemptResult ε α) :
    Nat → Nat → RetryResult ε α × Nat
  | _, 0 => (.runtimeError, 0)
  | i, rem + 1 =>
    match f i with
    | .ok a => (.ok a, 1)
    | .uncaught e => (.raised e, 1)
    | .caught e =>
      if rem = 0 then (.raised e, 1)
      else
        let r := retryLoop f (i + 1) rem
        (r.1, r.2 + 1)

/-- The wrapper produced by `retry(...)` applied to `func`, from
`src/utilities.py`: run the loop starting at invocation 0 with `tries`
iterations; if the loop falls through, raise
`RuntimeError("Unreachable code of retry logic.")`. -/
def fn_with_retry {ε α : Type} (f : Nat → AttemptResult ε α) (tries : Nat) :
    RetryResult ε α × Nat :=
  retryLoop f 0 tries

theorem retryLoop_spec {ε α : Type} (f : Nat → AttemptResult ε α) :
    ∀ (rem i : Nat), 1 ≤ rem →
    1 ≤ (retryLoop f i rem).2 ∧ (retryLoop f i rem).2 ≤ rem ∧
    (∀ j, j + 1 < (retryLoop f i rem).2 → ∃ e, f (i + j) = .caught e) ∧
    (match (retryLoop f i rem).1 with
     | .ok a => f (i + ((retryLoop f i rem).2 - 1)) = .ok a
     | .raised e => f (i + ((retryLoop f i rem).2 - 1)) = .caught e ∨
         f (i + ((retryLoop f i rem).2 - 1)) = .uncaught e
     | .runtimeError => False) := by
  intro rem
  induction rem with
  | zero => intro i h; omega
  | succ rem ih =>
    intro i _
    cases hf : f i with
    | ok a =>
      simp only [retryLoop, hf]
      refine ⟨by omega, by omega, ?_, ?_⟩
      · intro j hj; omega
      · simpa using hf
    | uncaught e =>
      simp only [retryLoop, hf]
      refine ⟨by omega, by omega, ?_, ?_⟩
      · intro j hj; omega
      · exact Or.inr (by simpa using hf)
    | caught e =>
      by_cases hrem : rem = 0
      · subst hrem
        simp only [retryLoop, hf, if_true]
        refine ⟨by simp, by simp, ?_, ?_⟩
        · intro j hj
          exact absurd hj (by simp)
        · exact Or.inl (by simpa using hf)
      · have h1 : 1 ≤ rem := Nat.one_le_iff_ne_zero.mpr hrem
        obtain ⟨ha, hb, hc, hd⟩ := ih (i + 1) h1
        simp only [retryLoop, hf, if_neg hrem]
        refine ⟨by omega, by omega, ?_, ?_⟩
        · intro j hj
          cases j with
          | zero => exact ⟨e, by simpa using hf⟩
          | succ j =>
            obtain ⟨e', he'⟩ := hc j (by simp at hj; omega)
            exact ⟨e', by rw [show i + (j + 1) = i + 1 + j by omega]; exact he'⟩
        · have heq : i + 1 + ((retryLoop f (i + 1) rem).2 - 1) =
              i + (retryLoop f (i + 1) rem).2 := by omega
          cases hr : (retryLoop f (i + 1) rem).1 with
          | ok a =>
            simp only [hr] at hd
            rw [heq] at hd
            simpa using hd
          | raised e' =>
            simp only [hr] at hd
            rw [heq] at hd
            simpa using hd
          | runtimeError => simp only [hr] at hd

/-- C9: the retry wrapper invokes the decorated function at most `tries`
times; it returns the value of the first successful invocation (every
earlier invocation raised an exception of the retried type) or re-raises
the exception of the final attempt performed; the trailing
`RuntimeError("Unreachable code of retry logic.")` branch is never
reached when `tries ≥ 1`. -/
theorem retry_at_most_tries_and_reraises_final {ε α : Type}
    (f : Nat → AttemptResult ε α) (tries : Nat) (h : 1 ≤ tries) :
    1 ≤ (fn_with_retry f tries).2 ∧ (fn_with_retry f tries).2 ≤ tries ∧
    (∀ j, j + 1 < (fn_with_retry f tries).2 → ∃ e, f j = .caught e) ∧
    (match (fn_with_retry f tries).1 with
     | .ok a => f ((fn_with_retry f tries).2 - 1) = .ok a
     | .raised e => f ((fn_with_retry f tries).2 - 1) = .caught e ∨
         f ((fn_with_retry f tries).2 - 1) = .uncaught e
     | .runtimeError => False) := by
  have := retryLoop_spec f tries 0 h
  simpa [fn_with_retry] using this

/-- Concrete oracle for the C9 witness: the first invocation raises the
retried exception type, the second returns 7. -/
def retryWitnessOracle : Nat → AttemptResult Unit Nat :=
  fun i => if i = 0 then .caught () else .ok 7

theorem retry_at_most_tries_witness :
    1 ≤ (fn_with_retry retryWitnessOracle 3).2 ∧
      (fn_with_retry retryWitnessOracle 3).2 ≤ 3 :=
  ⟨(retry_at_most_tries_and_reraises_final retryWitnessOracle 3 (by decide)).1,
   (retry_at_most_tries_and_reraises_final retryWitnessOracle 3 (by decide)).2.1⟩

/-! Helper view of `fn_with_retry` for decorated methods whose only
outcomes are success or an exception matched by the default
`exception=Exception` clause (as in `_wait_runner_startup` and
`_wait_runner_running`): each attempt is a boolean. -/

/-- Parsed `JobDetails` (pydantic model in `consumer.py`). -/
structure JobDetails where
  labels : List String
  url : String
deriving Repr, DecidableEq

/-- A message payload as classified by `consume`. -/
inductive MsgPayload where
  | sentinel
  | invalid (raw : String)
  | job (jd : JobDetails)
deriving Repr, DecidableEq

/-- Oracle for the external calls made while handling one message. -/
structure MsgEnv where
  pickedUp : Nat → Bool
  createNonEmpty : Bool

/-- The broker action finally taken on the message. -/
inductive MsgOutcome where
  | ack
  | rejectRequeue
  | rejectNoRequeue
deriving Repr, DecidableEq

/-- `_validate_labels`: case-folded job labels must be a subset of the
case-folded supported labels (Python uses `str.lower`). -/
def validate_labels (labels supported : List String) : Bool :=
  labels.all fun l => supported.any fun s => l.toLower == s.toLower

/-- Observable result of `_spawn_runner`'s poll loop: the broker action,
the number of `check_job_been_picked_up` calls, and the number of
`sleep(30)` calls performed. -/
structure SpawnResult where
  outcome : MsgOutcome
  polls : Nat
  sleeps : Nat
deriving Repr, DecidableEq

/-- The `for _ in range(10)` poll loop of `_spawn_runner`: check whether
the job has been picked up; on success ack and stop, otherwise
`sleep(30)` and try again; the `else` clause of the exhausted loop
rejects with requeue. -/
def spawnPollLoop (picked : Nat → Bool) : Nat → Nat → SpawnResult
  | _, 0 => { outcome := .rejectRequeue, polls := 0, sleeps := 0 }
  | i, rem + 1 =>
    if picked i then { outcome := .ack, polls := 1, sleeps := 0 }
    else
      let r := spawnPollLoop picked (i + 1) rem
      { outcome := r.outcome, polls := r.polls + 1, sleeps := r.sleeps + 1 }

/-- `_spawn_runner`: call `create_runners(1, reactive=True)`; if the
returned list is empty, reject with requeue without polling; otherwise
run the 10-iteration poll loop. -/
def spawn_runner (createNonEmpty : Bool) (picked : Nat → Bool) : SpawnResult :=
  if createNonEmpty then spawnPollLoop picked 0 10
  else { outcome := .rejectRequeue, polls := 0, sleeps := 0 }

/-- What the `while True` loop in `consume` does after handling one
message: `continue`, `break`, or propagate the `JobError` raised by
`_parse_job_details`. -/
inductive LoopNext where
  | cont
  | stop
  | err
deriving Repr, DecidableEq

/-- Observable result of handling one message inside `consume`. -/
structure ProcessResult where
  outcome : MsgOutcome
  createCalled : Bool
  checkCalls : Nat
  next : LoopNext
deriving Repr, DecidableEq

/-- One iteration of the `while True` loop of `consume`: sentinel check,
`_parse_job_details`, `_validate_labels`, the pre-spawn
`check_job_been_picked_up`, then `_spawn_runner` followed by `break`. -/
def processMsg (supported : List String) (env : MsgEnv) : MsgPayload → ProcessResult
  | .sentinel =>
    { outcome := .ack, createCalled := false, checkCalls := 0, next := .stop }
  | .invalid _ =>
    { outcome := .rejectNoRequeue, createCalled := false, checkCalls := 0, next := .err }
  | .job jd =>
    if validate_labels jd.labels supported = false then
      { outcome := .rejectNoRequeue, createCalled := false, checkCalls := 0, next := .cont }
    else if env.pickedUp 0 then
      { outcome := .ack, createCalled := false, checkCalls := 1, next := .cont }
    else
      let r := spawn_runner env.createNonEmpty fun i => env.pickedUp (i + 1)
      { outcome := r.outcome, createCalled := true, checkCalls := 1 + r.polls, next := .stop }

/-- A queued message together with its per-message oracle. -/
structure QueuedMsg where
  payload : MsgPayload
  env : MsgEnv

/-- How a run of `consume` ended. -/
inductive ConsumeEnd where
  | stopped
  | raisedJobError
  | exhausted
deriving Repr, DecidableEq

/-- The `consume` loop over a (finite prefix of the) queue: the broker
actions taken, in order, and how the loop ended.  `exhausted` is a model
artifact for running out of supplied messages while the real loop would
block on `simple_queue.get`. -/
def consume (supported : List String) : List QueuedMsg → List MsgOutcome × ConsumeEnd
  | [] => ([], .exhausted)
  | m :: rest =>
    let r := processMsg supported m.env m.payload
    match r.next with
    | .cont =>
      let o := consume supported rest
      (r.outcome :: o.1, o.2)
    | .stop => ([r.outcome], .stopped)
    | .err => ([r.outcome], .raisedJobError)

theorem spawnPollLoop_outcome_ack_iff (picked : Nat → Bool) :
    ∀ (rem i : Nat),
      (spawnPollLoop picked i rem).outcome = .ack ↔
        ∃ j, j < rem ∧ picked (i + j) = true := by
  intro rem
  induction rem with
  | zero => intro i; simp [spawnPollLoop]
  | succ rem ih =>
    intro i
    by_cases hok : picked i = true
    · simp only [spawnPollLoop, if_pos hok]
      constructor
      · intro _; exact ⟨0, by omega, by simpa using hok⟩
      · intro _; trivial
    · simp only [spawnPollLoop, if_neg hok]
      constructor
      · intro hc
        obtain ⟨j, hj, h2⟩ := (ih (i + 1)).mp (by simpa using hc)
        exact ⟨j + 1, by omega, by rw [show i + (j + 1) = i + 1 + j by omega]; exact h2⟩
      · rintro ⟨j, hj, h2⟩
        cases j with
        | zero =>
          simp at h2
          exact absurd h2 hok
        | succ j =>
          have := (ih (i + 1)).mpr
            ⟨j, by omega, by rw [show i + 1 + j = i + (j + 1) by omega]; exact h2⟩
          simpa using this

theorem spawnPollLoop_all_false (picked : Nat → Bool) :
    ∀ (rem i : Nat), (∀ j, j < rem → picked (i + j) = false) →
      spawnPollLoop picked i rem =
        { outcome := .rejectRequeue, polls := rem, sleeps := rem } := by
  intro rem
  induction rem with
  | zero => intro i _; simp [spawnPollLoop]
  | succ rem ih =>
    intro i hall
    have h0 : picked i = false := by simpa using hall 0 (by omega)
    have hrest : ∀ j, j < rem → picked (i + 1 + j) = false := by
      intro j hj
      rw [show i + 1 + j = i + (j + 1) by omega]
      exact hall (j + 1) (by omega)
    simp [spawnPollLoop, h0, ih (i + 1) hrest]

theorem spawnPollLoop_first_true (picked : Nat → Bool) :
    ∀ (j rem i : Nat), j < rem → picked (i + j) = true →
      (∀ k, k < j → picked (i + k) = false) →
      spawnPollLoop picked i rem =
        { outcome := .ack, polls := j + 1, sleeps := j } := by
  intro j
  induction j with
  | zero =>
    intro rem i hlt hp _
    cases rem with
    | zero => omega
    | succ rem =>
      simp at hp
      simp [spawnPollLoop, hp]
  | succ j ih =>
    intro rem i hlt hp hbefore
    cases rem with
    | zero => omega
    | succ rem =>
      have h0 : picked i = false := by simpa using hbefore 0 (by omega)
      have hp' : picked (i + 1 + j) = true := by
        rw [show i + 1 + j = i + (j + 1) by omega]; exact hp
      have hbefore' : ∀ k, k < j → picked (i + 1 + k) = false := by
        intro k hk
        rw [show i + 1 + k = i + (k + 1) by omega]
        exact hbefore (k + 1) (by omega)
      simp [spawnPollLoop, h0, ih rem (i + 1) (by omega) hp' hbefore']

theorem spawnPollLoop_polls_le (picked : Nat → Bool) :
    ∀ (rem i : Nat), (spawnPollLoop picked i rem).polls ≤ rem := by
  intro rem
  induction rem with
  | zero => intro i; simp [spawnPollLoop]
  | succ rem ih =>
    intro i
    by_cases hok : picked i = true
    · simp [spawnPollLoop, hok]
    · simp only [spawnPollLoop, if_neg hok]
      have := ih (i + 1)
      simpa using Nat.add_le_add_right this 1

theorem spawnPollLoop_outcome_ne_noRequeue (picked : Nat → Bool) :
    ∀ (rem i : Nat), (spawnPollLoop picked i rem).outcome ≠ .rejectNoRequeue := by
  intro rem
  induction rem with
  | zero => intro i; simp [spawnPollLoop]
  | succ rem ih =>
    intro i
    by_cases hok : picked i = true
    · simp [spawnPollLoop, hok]
    · simp only [spawnPollLoop, if_neg hok]
      simpa using ih (i + 1)

theorem validate_labels_iff (labels supported : List String) :
    validate_labels labels supported = true ↔
      ∀ l ∈ labels, ∃ s ∈ supported, l.toLower = s.toLower := by
  simp [validate_labels, List.all_eq_true, List.any_eq_true]

/-- C5: in `_spawn_runner`, after `create_runners(1)` returns a non-empty
list the job-dispatch check is polled at most 10 times with a fixed
`sleep(30)` between successive polls; the message is acked on the first
poll returning true (after the j-th poll index, j+1 polls and j sleeps
have happened), and rejected with requeue after 10 false polls; when
`create_runners(1)` returns an empty list the message is rejected with
requeue and no poll happens. -/
theorem spawn_runner_polling_spec (createNonEmpty : Bool) (picked : Nat → Bool) :
    (spawn_runner createNonEmpty picked).polls ≤ 10 ∧
    (createNonEmpty = false →
      spawn_runner createNonEmpty picked =
        { outcome := .rejectRequeue, polls := 0, sleeps := 0 }) ∧
    (createNonEmpty = true →
      (((spawn_runner createNonEmpty picked).outcome = .ack ↔
          ∃ j, j < 10 ∧ picked j = true) ∧
       ((∀ j, j < 10 → picked j = false) →
          spawn_runner createNonEmpty picked =
            { outcome := .rejectRequeue, polls := 10, sleeps := 10 }) ∧
       (∀ j, j < 10 → picked j = true → (∀ k, k < j → picked k = false) →
          spawn_runner createNonEmpty picked =
            { outcome := .ack, polls := j + 1, sleeps := j }))) := by
  cases createNonEmpty with
  | false =>
    refine ⟨by simp [spawn_runner], fun _ => by simp [spawn_runner], fun hcon => by simp at hcon⟩
  | true =>
    refine ⟨?_, fun hcon => by simp at hcon, fun _ => ⟨?_, ?_, ?_⟩⟩
    · simpa [spawn_runner] using spawnPollLoop_polls_le picked 10 0
    · simpa [spawn_runner] using spawnPollLoop_outcome_ack_iff picked 10 0
    · intro hall
      have : ∀ j, j < 10 → picked (0 + j) = false := by simpa using hall
      simpa [spawn_runner] using spawnPollLoop_all_false picked 10 0 this
    · intro j hj hp hbefore
      have hp' : picked (0 + j) = true := by simpa using hp
      have hb' : ∀ k, k < j → picked (0 + k) = false := by simpa using hbefore
      simpa [spawn_runner] using spawnPollLoop_first_true picked j 10 0 hj hp' hb'

/-- Poll oracle for the C5 witness: only the second poll finds the job
picked up. -/
def pickedWitnessOracle : Nat → Bool := fun i => i == 1

theorem spawn_runner_polling_spec_witness :
    (spawn_runner true pickedWitnessOracle).outcome = .ack ∧
      (spawn_runner true pickedWitnessOracle).polls ≤ 10 :=
  ⟨(((spawn_runner_polling_spec true pickedWitnessOracle).2.2 rfl).1).mpr
      ⟨1, by decide, by decide⟩,
   (spawn_runner_polling_spec true pickedWitnessOracle).1⟩

/-- C2: a message handled by the consumer loop is acknowledged only if
either its payload is the sentinel `"__END__"`, or one of the (at most
11) `check_job_been_picked_up` calls for its job URL returned true. -/
theorem consume_ack_requires_pickup_or_sentinel (supported : List String)
    (env : MsgEnv) (p : MsgPayload)
    (h : (processMsg supported env p).outcome = .ack) :
    p = .sentinel ∨ ∃ i, i < 11 ∧ env.pickedUp i = true := by
  cases p with
  | sentinel => exact Or.inl rfl
  | invalid raw => simp [processMsg] at h
  | job jd =>
    by_cases hv : validate_labels jd.labels supported = false
    · simp [processMsg, hv] at h
    · by_cases hp0 : env.pickedUp 0 = true
      · exact Or.inr ⟨0, by omega, hp0⟩
      · right
        have hsp : (spawn_runner env.createNonEmpty
            fun i => env.pickedUp (i + 1)).outcome = .ack := by
          simpa [processMsg, hv, hp0] using h
        cases hc : env.createNonEmpty with
        | false =>
          rw [hc] at hsp
          simp [spawn_runner] at hsp
        | true =>
          rw [hc] at hsp
          simp only [spawn_runner, if_pos rfl] at hsp
          obtain ⟨j, hj, h2⟩ :=
            (spawnPollLoop_outcome_ack_iff (fun i => env.pickedUp (i + 1)) 10 0).mp hsp
          exact ⟨j + 1, by omega, by simpa using h2⟩

/-- Oracle for the C2 witness: the dispatch check immediately reports the
job as picked up, so the message is acked. -/
def ackWitnessEnv : MsgEnv := { pickedUp := fun _ => true, createNonEmpty := true }

theorem consume_ack_requires_pickup_or_sentinel_witness :
    MsgPayload.job ⟨[], "https://host/jobs/1"⟩ = .sentinel ∨
      ∃ i, i < 11 ∧ ackWitnessEnv.pickedUp i = true :=
  consume_ack_requires_pickup_or_sentinel ["x64"] ackWitnessEnv
    (.job ⟨[], "https://host/jobs/1"⟩) (by decide)

/-- C6: a parsed job message is rejected without requeue with no runner
created exactly when its case-folded labels are not a subset of the
case-folded supported labels; when they are a subset, the consumer
proceeds to the dispatch check (at least one
`check_job_been_picked_up` call). -/
theorem consume_label_subset_gate (supported : List String) (env : MsgEnv)
    (jd : JobDetails) :
    (((processMsg supported env (.job jd)).outcome = .rejectNoRequeue ∧
      (processMsg supported env (.job jd)).createCalled = false) ↔
      ¬ ∀ l ∈ jd.labels, ∃ s ∈ supported, l.toLower = s.toLower) ∧
    ((∀ l ∈ jd.labels, ∃ s ∈ supported, l.toLower = s.toLower) →
      1 ≤ (processMsg supported env (.job jd)).checkCalls) := by
  by_cases hv : validate_labels jd.labels supported = false
  · have hnall : ¬ ∀ l ∈ jd.labels, ∃ s ∈ supported, l.toLower = s.toLower := by
      intro hall
      rw [(validate_labels_iff jd.labels supported).mpr hall] at hv
      exact absurd hv (by decide)
    refine ⟨?_, fun hall => absurd hall hnall⟩
    simp [processMsg, hv, hnall]
  · have hvt : validate_labels jd.labels supported = true := by
      simpa using hv
    have hall : ∀ l ∈ jd.labels, ∃ s ∈ supported, l.toLower = s.toLower :=
      (validate_labels_iff jd.labels supported).mp hvt
    constructor
    · constructor
      · rintro ⟨hout, -⟩
        by_cases hp0 : env.pickedUp 0 = true
        · simp [processMsg, hv, hp0] at hout
        · have hsp : (spawn_runner env.createNonEmpty
              fun i => env.pickedUp (i + 1)).outcome = .rejectNoRequeue := by
            simpa [processMsg, hv, hp0] using hout
          cases hc : env.createNonEmpty with
          | false =>
            rw [hc] at hsp
            simp [spawn_runner] at hsp
          | true =>
            rw [hc] at hsp
            simp only [spawn_runner, if_pos rfl] at hsp
            exact absurd hsp
              (spawnPollLoop_outcome_ne_noRequeue (fun i => env.pickedUp (i + 1)) 10 0)
      · intro hn
        exact absurd hall hn
    · intro _
      by_cases hp0 : env.pickedUp 0 = true
      · simp [processMsg, hv, hp0]
      · simp [processMsg, hv, hp0]

/-- Environment for the C6 witness. -/
def gateWitnessEnv : MsgEnv := { pickedUp := fun _ => true, createNonEmpty := true }

theorem consume_label_subset_gate_witness :
    1 ≤ (processMsg ["x64"] gateWitnessEnv
          (.job ⟨[], "https://host/jobs/2"⟩)).checkCalls :=
  (consume_label_subset_gate ["x64"] gateWitnessEnv
      ⟨[], "https://host/jobs/2"⟩).2 (by simp)

/-- Per-message oracle for the C7 counterexample (never consulted on the
poison path). -/
def poisonEnv : MsgEnv := { pickedUp := fun _ => false, createNonEmpty := true }

/-- C7 counterexample: on a payload that fails to parse as `JobDetails`,
`consume` rejects without requeue but then `_parse_job_details` raises
`JobError`, which `consume` does not catch: the loop terminates and the
following message (here the sentinel) is never processed, contradicting
the claim that the loop continues with the next message. -/
theorem consume_poison_counterexample :
    consume ["x64"] [⟨.invalid "not-json", poisonEnv⟩, ⟨.sentinel, poisonEnv⟩] =
        ([.rejectNoRequeue], .raisedJobError) ∧
      (consume ["x64"]
        [⟨.invalid "not-json", poisonEnv⟩, ⟨.sentinel, poisonEnv⟩]).1.length = 1 :=
  ⟨rfl, rfl⟩

/-- C7 amended: on a payload that fails to parse as `JobDetails`, the
consumer rejects the message without requeue and then raises `JobError`
out of `consume`: the loop terminates instead of continuing with the
next message. -/
theorem consume_poison_rejects_without_requeue_and_raises
    (supported : List String) (raw : String) (env : MsgEnv)
    (rest : List QueuedMsg) :
    consume supported ({ payload := .invalid raw, env := env } :: rest) =
      ([.rejectNoRequeue], .raisedJobError) := rfl

/-! ## Scaler and non-reactive reconciler
(`github_runner_manager/manager/runner_scaler.py`)

`RunnerManager` (cleanup, get_runners, create_runners, delete_runners)
is the collaborator the scaler drives; its replies are an oracle
`ManagerEnv`.  `IssuedMetricEventsStats` is modelled by `Stats`, a count
per metric-event class; the dict-merge in the source adds counts
pointwise over the union of keys, which `Stats.merge` mirrors. -/

/-- Counts of issued metric events per event class
(`IssuedMetricEventsStats`). -/
structure Stats where
  runnerInstalled : Nat
  runnerStart : Nat
  runnerStop : Nat
deriving Repr, DecidableEq

/-- The dict merge `{e: a.get(e, 0) + b.get(e, 0) for e in keys(a) ∪ keys(b)}`. -/
def Stats.merge (a b : Stats) : Stats :=
  { runnerInstalled := a.runnerInstalled + b.runnerInstalled,
    runnerStart := a.runnerStart + b.runnerStart,
    runnerStop := a.runnerStop + b.runnerStop }

/-- How `self._manager.create_runners(runner_diff)` ends:
normally, with the caught `MissingServerConfigError`, or with a
`CloudError` that propagates. -/
inductive CreateOutcome where
  | ok
  | missingServerConfig
  | cloudError
deriving Repr, DecidableEq

/-- Oracle for the `RunnerManager` calls made by
`_reconcile_non_reactive`. -/
structure ManagerEnv where
  cleanupStats : Stats
  observed : Nat
  createOutcome : CreateOutcome
  deleteStats : Stats

/-- A call on the runner manager, recorded in program order. -/
inductive ManagerCall where
  | cleanup
  | getRunners
  | createRunners (n : Nat)
  | deleteRunners (n : Nat)
deriving Repr, DecidableEq

/-- The `_ReconcileResult` dataclass. -/
structure ReconcileOut where
  runner_diff : Int
  metric_stats : Stats
deriving Repr, DecidableEq

/-- `RunnerScaler._reconcile_non_reactive`: cleanup, enumerate survivors,
diff against the expected quantity, then create or delete; a
`MissingServerConfigError` from `create_runners` is caught and logged,
any `CloudError` propagates (`Except.error`).  The second component is
the ordered trace of `RunnerManager` calls. -/
def reconcile_non_reactive (expected : Nat) (env : ManagerEnv) :
    Except Unit ReconcileOut × List ManagerCall :=
  let diff : Int := (expected : Int) - (env.observed : Int)
  if 0 < diff then
    match env.createOutcome with
    | .cloudError =>
      (.error (), [.cleanup, .getRunners, .createRunners diff.toNat])
    | _ =>
      (.ok { runner_diff := diff, metric_stats := env.cleanupStats },
        [.cleanup, .getRunners, .createRunners diff.toNat])
  else if diff < 0 then
    (.ok { runner_diff := diff,
           metric_stats := Stats.merge env.deleteStats env.cleanupStats },
      [.cleanup, .getRunners, .deleteRunners (-diff).toNat])
  else
    (.ok { runner_diff := diff, metric_stats := env.cleanupStats },
      [.cleanup, .getRunners])

/-- C1: a non-reactive reconcile first calls `cleanup()`, then
enumerates the surviving runners, and only then creates or deletes:
with `diff = expected - observed` it calls `create_runners(diff)` when
`diff > 0`, `delete_runners(-diff)` when `diff < 0`, and neither when
`diff = 0`; whenever the call returns (rather than propagating a cloud
error) its result carries exactly `diff`. -/
theorem reconcile_non_reactive_order_and_diff (expected : Nat) (env : ManagerEnv) :
    (reconcile_non_reactive expected env).2 =
      [ManagerCall.cleanup, ManagerCall.getRunners] ++
        (if 0 < (expected : Int) - (env.observed : Int) then
          [ManagerCall.createRunners ((expected : Int) - (env.observed : Int)).toNat]
         else if (expected : Int) - (env.observed : Int) < 0 then
          [ManagerCall.deleteRunners (-((expected : Int) - (env.observed : Int))).toNat]
         else []) ∧
    (∀ r, (reconcile_non_reactive expected env).1 = .ok r →
      r.runner_diff = (expected : Int) - (env.observed : Int)) := by
  by_cases hpos : 0 < (expected : Int) - (env.observed : Int)
  · cases hco : env.createOutcome with
    | ok =>
      refine ⟨by simp [reconcile_non_reactive, hpos, hco], ?_⟩
      intro r hr
      simp [reconcile_non_reactive, hpos, hco] at hr
      simp [← hr]
    | missingServerConfig =>
      refine ⟨by simp [reconcile_non_reactive, hpos, hco], ?_⟩
      intro r hr
      simp [reconcile_non_reactive, hpos, hco] at hr
      simp [← hr]
    | cloudError =>
      refine ⟨by simp [reconcile_non_reactive, hpos, hco], ?_⟩
      intro r hr
      simp [reconcile_non_reactive, hpos, hco] at hr
  · by_cases hneg : (expected : Int) - (env.observed : Int) < 0
    · refine ⟨by simp [reconcile_non_reactive, hpos, hneg], ?_⟩
      intro r hr
      simp [reconcile_non_reactive, hpos, hneg] at hr
      simp [← hr]
    · refine ⟨by simp [reconcile_non_reactive, hpos, hneg], ?_⟩
      intro r hr
      simp [reconcile_non_reactive, hpos, hneg] at hr
      simp [← hr]

/-- Manager oracle for the C1 witness: 1 observed runner against an
expected quantity of 3, creation succeeding. -/
def reconcileWitnessEnv : ManagerEnv :=
  { cleanupStats := { runnerInstalled := 0, runnerStart := 0, runnerStop := 1 },
    observed := 1,
    createOutcome := .ok,
    deleteStats := { runnerInstalled := 0, runnerStart := 0, runnerStop := 0 } }

theorem reconcile_non_reactive_order_and_diff_witness :
    (reconcile_non_reactive 3 reconcileWitnessEnv).2 =
        [ManagerCall.cleanup, ManagerCall.getRunners, ManagerCall.createRunners 2] ∧
      ({ runner_diff := 2,
         metric_stats := reconcileWitnessEnv.cleanupStats } : ReconcileOut).runner_diff = 2 := by
  have h := reconcile_non_reactive_order_and_diff 3 reconcileWitnessEnv
  refine ⟨by rw [h.1]; decide, ?_⟩
  exact h.2 { runner_diff := 2, metric_stats := reconcileWitnessEnv.cleanupStats } (by rfl)

/-! ## Reconciliation metric (`RunnerScaler.reconcile` and
`_issue_reconciliation_metric`) -/

/-- GitHub-side state of a runner (`GitHubRunnerState`) as consumed by
the scaler. -/
inductive GitHubRunnerState where
  | busy
  | idle
  | offline
  | unknownState
deriving Repr, DecidableEq

/-- Joined health verdict (`HealthState`). -/
inductive HealthState where
  | healthy
  | unhealthy
  | unknownHealth
deriving Repr, DecidableEq

/-- The fields of `RunnerInstance` the metric code reads.  Runner names
are unique (InstanceIDs), so the source's unions of name sets have the
same cardinalities as the list counts used here. -/
structure RunnerView where
  githubState : GitHubRunnerState
  health : HealthState
deriving Repr, DecidableEq

/-- Number of runners whose GitHub state is IDLE. -/
def idleCount (rl : List RunnerView) : Nat :=
  (rl.filter fun r => r.githubState == .idle).length

/-- Number of runners that are OFFLINE and HEALTHY. -/
def offlineHealthyCount (rl : List RunnerView) : Nat :=
  (rl.filter fun r => r.githubState == .offline && r.health == .healthy).length

/-- Number of runners whose GitHub state is BUSY. -/
def busyCount (rl : List RunnerView) : Nat :=
  (rl.filter fun r => r.githubState == .busy).length

/-- The `Reconciliation` metric event's observable fields. -/
structure ReconciliationEvent where
  crashed_runners : Int
  idle_runners : Nat
  active_runners : Nat
  expected_runners : Nat
deriving Repr, DecidableEq

/-- `_issue_reconciliation_metric`: build the `Reconciliation` event
from the cycle's metric stats and the final runner list, and pass it to
`metric_events.issue_event` — exactly once per cycle.  A sink-side
`IssueMetricEventError` is caught and logged after that call, so the
emission itself is unconditional. -/
def issue_reconciliation_metric (stats : Stats) (runnerList : List RunnerView)
    (expected : Nat) : List ReconciliationEvent :=
  [{ crashed_runners := (stats.runnerStart : Int) - (stats.runnerStop : Int),
     idle_runners := idleCount runnerList + offlineHealthyCount runnerList,
     active_runners := busyCount runnerList,
     expected_runners := expected }]

/-- The empty `metric_stats = {}` the `reconcile` body starts from. -/
def emptyStats : Stats :=
  { runnerInstalled := 0, runnerStart := 0, runnerStop := 0 }

/-- Modelled from the spec: the result of the reactive branch
`reactive_runner_manager.reconcile` (its module is not among the
sources here) — per §4.7 it resizes the consumer-process pool and
returns the process diff together with the `IssuedMetricEventsStats`
counting the metric events issued during the cycle; a `CloudError`
propagates, as in the non-reactive branch. -/
inductive ReactiveOutcome where
  | ok (diff : Int) (stats : Stats)
  | cloudError
deriving Repr, DecidableEq

/-- Which branch `RunnerScaler.reconcile` takes: the reactive one when
`self._reactive_config is not None`, else the non-reactive one. -/
inductive ScalerMode where
  | nonReactive (env : ManagerEnv)
  | reactive (outcome : ReactiveOutcome)

/-- The `try` body of `RunnerScaler.reconcile`: dispatch on the
configured mode and yield the branch's diff and metric stats, or
propagate its `CloudError` (re-raised as `ReconcileError`). -/
def scaler_branch (expected : Nat) : ScalerMode → Except Unit (Int × Stats)
  | .nonReactive env =>
    match (reconcile_non_reactive expected env).1 with
    | .ok r => .ok (r.runner_diff, r.metric_stats)
    | .error e => .error e
  | .reactive (.ok d s) => .ok (d, s)
  | .reactive .cloudError => .error ()

/-- `RunnerScaler.reconcile`: run the configured branch; the `finally`
block always issues the `Reconciliation` metric, from the branch's
stats on success and from the initial empty `metric_stats = {}` when
the branch raised. -/
def runner_scaler_reconcile (expected : Nat) (mode : ScalerMode)
    (runnerList : List RunnerView) :
    Except Unit Int × List ReconciliationEvent :=
  match scaler_branch expected mode with
  | .ok (d, stats) =>
    (.ok d, issue_reconciliation_metric stats runnerList expected)
  | .error _ =>
    (.error (), issue_reconciliation_metric emptyStats runnerList expected)

/-- Modelled from the spec: `RunnerManager.cleanup`,
`RunnerManager.delete_runners` and the reactive branch (modules not
among the sources here) return `IssuedMetricEventsStats` counting
exactly the metric events they issued.  The events issued during a
cycle that completes are therefore, in non-reactive mode, the cleanup
stats merged with the delete stats when the cycle deleted runners, and
in reactive mode the branch's stats.  For a cycle that ends in an error
the events issued before the failure are not recoverable from the
branch result; no statement below depends on that case. -/
def cycle_issued_stats (expected : Nat) : ScalerMode → Stats
  | .nonReactive env =>
    if (expected : Int) - (env.observed : Int) < 0 then
      Stats.merge env.deleteStats env.cleanupStats
    else env.cleanupStats
  | .reactive (.ok _ s) => s
  | .reactive .cloudError => emptyStats

theorem reconcile_non_reactive_ok_stats (expected : Nat) (env : ManagerEnv)
    (r : ReconcileOut) (h : (reconcile_non_reactive expected env).1 = .ok r) :
    r.metric_stats = cycle_issued_stats expected (.nonReactive env) := by
  by_cases hpos : 0 < (expected : Int) - (env.observed : Int)
  · have hneg : ¬ (expected : Int) - (env.observed : Int) < 0 := by omega
    cases hco : env.createOutcome with
    | ok =>
      simp [reconcile_non_reactive, hpos, hco] at h
      simp [← h, cycle_issued_stats, hneg]
    | missingServerConfig =>
      simp [reconcile_non_reactive, hpos, hco] at h
      simp [← h, cycle_issued_stats, hneg]
    | cloudError =>
      simp [reconcile_non_reactive, hpos, hco] at h
  · by_cases hneg : (expected : Int) - (env.observed : Int) < 0
    · simp [reconcile_non_reactive, hpos, hneg] at h
      simp [← h, cycle_issued_stats, hneg]
    · simp [reconcile_non_reactive, hpos, hneg] at h
      simp [← h, cycle_issued_stats, hneg]

/-- Manager oracle for the C8 counterexample: cleanup issued two
`RunnerStop` events, then `create_runners` raised a `CloudError`. -/
def crashedCycleEnv : ManagerEnv :=
  { cleanupStats := { runnerInstalled := 0, runnerStart := 0, runnerStop := 2 },
    observed := 0,
    createOutcome := .cloudError,
    deleteStats := emptyStats }

/-- C8 counterexample: on a cycle that ends in an error the emitted
`Reconciliation` metric has `crashed_runners = 0` because the local
`metric_stats` is still the initial empty dict, while the cycle's
issued events give `RunnerStart - RunnerStop = 0 - 2 = -2`: the claimed
equality fails on this input. -/
theorem reconciliation_metric_counterexample :
    (runner_scaler_reconcile 2 (.nonReactive crashedCycleEnv) []).2 =
        [{ crashed_runners := 0, idle_runners := 0, active_runners := 0,
           expected_runners := 2 }] ∧
      ((cycle_issued_stats 2 (.nonReactive crashedCycleEnv)).runnerStart : Int) -
          ((cycle_issued_stats 2 (.nonReactive crashedCycleEnv)).runnerStop : Int) = -2 ∧
      (0 : Int) ≠ -2 :=
  ⟨rfl, by decide, by decide⟩

theorem scaler_branch_ok_stats (expected : Nat) (mode : ScalerMode)
    (d : Int) (stats : Stats)
    (h : scaler_branch expected mode = .ok (d, stats)) :
    stats = cycle_issued_stats expected mode := by
  cases mode with
  | nonReactive env =>
    cases hr : (reconcile_non_reactive expected env).1 with
    | ok r =>
      simp [scaler_branch, hr] at h
      rw [← h.2]
      exact reconcile_non_reactive_ok_stats expected env r hr
    | error e =>
      simp [scaler_branch, hr] at h
  | reactive outcome =>
    cases outcome with
    | ok d' s =>
      simp [scaler_branch] at h
      rw [← h.2]
      rfl
    | cloudError => simp [scaler_branch] at h

/-- C8 amended: every reconcile cycle, reactive or non-reactive,
including cycles that end in an error, issues exactly one
`Reconciliation` metric; its `idle_runners` field counts the
idle-online runners plus the offline-and-healthy runners, and its
`active_runners` field counts the busy runners; `crashed_runners`
equals the cycle's `RunnerStart` minus `RunnerStop` event counts on a
successful cycle, but is `0` on a cycle that ends in an error,
whatever events the cycle issued before failing. -/
theorem scaler_reconcile_metric_spec (expected : Nat) (mode : ScalerMode)
    (runnerList : List RunnerView) :
    (runner_scaler_reconcile expected mode runnerList).2.length = 1 ∧
    ∀ m ∈ (runner_scaler_reconcile expected mode runnerList).2,
      m.idle_runners = idleCount runnerList + offlineHealthyCount runnerList ∧
      m.active_runners = busyCount runnerList ∧
      m.expected_runners = expected ∧
      ((runner_scaler_reconcile expected mode runnerList).1 = .error () →
        m.crashed_runners = 0) ∧
      (∀ d, (runner_scaler_reconcile expected mode runnerList).1 = .ok d →
        m.crashed_runners =
          ((cycle_issued_stats expected mode).runnerStart : Int) -
            ((cycle_issued_stats expected mode).runnerStop : Int)) := by
  cases hb : scaler_branch expected mode with
  | ok p =>
    obtain ⟨d, stats⟩ := p
    have hstats := scaler_branch_ok_stats expected mode d stats hb
    constructor
    · simp [runner_scaler_reconcile, hb, issue_reconciliation_metric]
    · intro m hm
      simp [runner_scaler_reconcile, hb, issue_reconciliation_metric] at hm
      subst hm
      refine ⟨rfl, rfl, rfl, ?_, ?_⟩
      · intro hcon
        simp [runner_scaler_reconcile, hb] at hcon
      · intro d' _
        simp [hstats]
  | error e =>
    constructor
    · simp [runner_scaler_reconcile, hb, issue_reconciliation_metric]
    · intro m hm
      simp [runner_scaler_reconcile, hb, issue_reconciliation_metric] at hm
      subst hm
      refine ⟨rfl, rfl, rfl, ?_, ?_⟩
      · intro _
        simp [emptyStats]
      · intro d hcon
        simp [runner_scaler_reconcile, hb] at hcon

/-- Reactive branch outcome for the C8 witness: the cycle resized the
consumer pool by +1 and issued one `RunnerStart` and two `RunnerStop`
events. -/
def scalerWitnessOutcome : ReactiveOutcome :=
  .ok 1 { runnerInstalled := 0, runnerStart := 1, runnerStop := 2 }

/-- Final runner list for the C8 witness: one idle, one busy, one
offline-healthy runner. -/
def scalerWitnessRunners : List RunnerView :=
  [{ githubState := .idle, health := .healthy },
   { githubState := .busy, health := .healthy },
   { githubState := .offline, health := .healthy }]

/-- The single metric the C8 witness cycle emits. -/
def scalerWitnessMetric : ReconciliationEvent :=
  { crashed_runners := -1, idle_runners := 2, active_runners := 1,
    expected_runners := 5 }

theorem scaler_reconcile_metric_spec_witness :
    (runner_scaler_reconcile 5 (.reactive scalerWitnessOutcome)
        scalerWitnessRunners).2.length = 1 ∧
      scalerWitnessMetric.crashed_runners =
        ((cycle_issued_stats 5 (.reactive scalerWitnessOutcome)).runnerStart : Int) -
          ((cycle_issued_stats 5 (.reactive scalerWitnessOutcome)).runnerStop : Int) := by
  have h := scaler_reconcile_metric_spec 5 (.reactive scalerWitnessOutcome)
    scalerWitnessRunners
  have hm : scalerWitnessMetric ∈
      (runner_scaler_reconcile 5 (.reactive scalerWitnessOutcome)
        scalerWitnessRunners).2 := by
    decide
  exact ⟨h.1, (h.2 scalerWitnessMetric hm).2.2.2.2 1 (by rfl)⟩

/-! ## OpenStack cleanup (`OpenStackRunnerManager.cleanup` and
`_get_runners_health`)

`health_checks.check_runner` is an external probe; its outcome per
instance (true, false, or an `OpenstackHealthCheckError`) is attached
to the instance record as an oracle. -/

/-- Outcome of `health_checks.check_runner` for one instance. -/
inductive HealthCheckOutcome where
  | healthyCheck
  | unhealthyCheck
  | checkError
deriving Repr, DecidableEq

/-- A cloud instance as listed by `OpenstackCloud.get_instances`,
carrying the oracle outcome of its health check. -/
structure OpenstackInstance where
  instanceId : String
  check : HealthCheckOutcome
deriving Repr, DecidableEq

/-- The `_RunnerHealth` dataclass. -/
structure RunnerHealthPartition where
  healthy : List OpenstackInstance
  unhealthy : List OpenstackInstance
  unknown : List OpenstackInstance
deriving Repr, DecidableEq

/-- `_get_runners_health`: run the health check on every listed
instance; true goes to `healthy`, false to `unhealthy`, a raised
`OpenstackHealthCheckError` to `unknown`. -/
def get_runners_health (instances : List OpenstackInstance) :
    RunnerHealthPartition :=
  { healthy := instances.filter fun r => r.check == .healthyCheck,
    unhealthy := instances.filter fun r => r.check == .unhealthyCheck,
    unknown := instances.filter fun r => r.check == .checkError }

/-- Observable effect of `cleanup`: which instances were deleted
(`_delete_runner`), and that the cloud resource cleanup ran. -/
structure CleanupTrace where
  deleted : List OpenstackInstance
  cloudCleanupCalled : Bool
deriving Repr, DecidableEq

/-- `OpenStackRunnerManager.cleanup`: partition runners by health, delete
every unhealthy runner, then clean up cloud resources. -/
def openstack_cleanup (instances : List OpenstackInstance) : CleanupTrace :=
  { deleted := (get_runners_health instances).unhealthy,
    cloudCleanupCalled := true }

/-- C4: a `cleanup()` pass deletes exactly the runners whose health
verdict is UNHEALTHY: every unhealthy runner is deleted, and no runner
whose check came back healthy or failed (UNKNOWN verdict) is deleted in
that pass. -/
theorem cleanup_deletes_exactly_unhealthy (instances : List OpenstackInstance)
    (r : OpenstackInstance) :
    r ∈ (openstack_cleanup instances).deleted ↔
      r ∈ instances ∧ r.check = .unhealthyCheck := by
  simp [openstack_cleanup, get_runners_health, List.mem_filter]

theorem cleanup_deletes_exactly_unhealthy_witness :
    ({ instanceId := "runner-a", check := .unhealthyCheck } : OpenstackInstance) ∈
      (openstack_cleanup
        [{ instanceId := "runner-a", check := .unhealthyCheck },
         { instanceId := "runner-b", check := .healthyCheck }]).deleted :=
  (cleanup_deletes_exactly_unhealthy
    [{ instanceId := "runner-a", check := .unhealthyCheck },
     { instanceId := "runner-b", check := .healthyCheck }]
    { instanceId := "runner-a", check := .unhealthyCheck }).mpr ⟨by simp, rfl⟩

/-! ## Runner creation readiness
(`OpenStackRunnerManager.create_runner`, `_wait_runner_startup`,
`_wait_runner_running`)

`_wait_runner_startup` is decorated `@retry(tries=10, delay=60)` and
`_wait_runner_running` `@retry(tries=5, delay=60)`, both with the
default `exception=Exception`, so every `RunnerStartError` an attempt
raises is caught until the tries are exhausted.  Each attempt's
external observations are oracles indexed by the attempt number.  The
platform's view of the runner (`online` / `deletable`) is part of the
environment so that statements can compare the code's readiness
decision with it. -/

/-- `FlushMode` from `runner_manager`. -/
inductive FlushMode where
  | flushIdle
  | flushBusy
deriving Repr, DecidableEq

/-- Observable behaviour of the `POST /runner/flush` handler. -/
structure FlushResponse where
  body : String
  status : Nat
  mode : FlushMode
deriving Repr, DecidableEq

/-- The `flush_runner` handler: read the optional `flush-busy` query
parameter (`request.args.get` yields `none` when absent); `flush_busy`
is true exactly when the raw value is in `("True", "true")`; pick the
flush mode accordingly and answer `("", 204)`. -/
def flush_runner (flushBusyParam : Option String) : FlushResponse :=
  let flushBusy := flushBusyParam == some "True" || flushBusyParam == some "true"
  { body := "",
    status := 204,
    mode := if flushBusy then .flushBusy else .flushIdle }

/-- Modelled from the spec: `RunnerManager.flush_runners` (whose module
is not part of the sources here) includes busy runners in the flush
exactly when called with `FLUSH_BUSY`, and only idle runners under
`FLUSH_IDLE`. -/
def busy_included (mode : FlushMode) : Bool :=
  mode == .flushBusy

/-- C10: a `POST /runner/flush` request flushes busy runners exactly
when the `flush-busy` query parameter is the string `"True"` or
`"true"`; any other value — including `"TRUE"`, `"1"` and an absent
parameter — yields an idle-only flush, and the handler answers 204 in
all cases. -/
theorem flush_runner_busy_iff (p : Option String) :
    (busy_included (flush_runner p).mode = true ↔
      (p = some "True" ∨ p = some "true")) ∧
    (flush_runner p).status = 204 ∧
    (flush_runner none).mode = .flushIdle ∧
    (flush_runner (some "TRUE")).mode = .flushIdle ∧
    (flush_runner (some "1")).mode = .flushIdle := by
  refine ⟨?_, rfl, by decide, by decide, by decide⟩
  by_cases hT : p = some "True"
  · subst hT
    simp [flush_runner, busy_included]
  · by_cases ht : p = some "true"
    · subst ht
      simp [flush_runner, busy_included]
    · have h1 : (p == some "True") = false := by
        simpa using hT
      have h2 : (p == some "true") = false := by
        simpa using ht
      simp [flush_runner, busy_included, h1, h2, hT, ht]

theorem flush_runner_busy_iff_witness :
    busy_included (flush_runner (some "true")).mode = true ∧
      (flush_runner (some "true")).status = 204 :=
  ⟨(flush_runner_busy_iff (some "true")).1.mpr (Or.inr rfl),
   (flush_runner_busy_iff (some "true")).2.1⟩

end GithubRunnerOperator
